import Mathlib

/-!
Verification development for the antrian-kpp queue system, focusing on the
print-agent runtime (src/cmd/print-agent/agent.go) and the claim-based
print-job dispatch protocol it speaks with the server.

The agent's pure control flow is embedded directly from the Go source:
external effects (HTTP claim/complete/fail calls, JSON parsing of the
ticket template, the thermal-printer collaborator) are oracles supplied as
function-valued parameters, and each agent routine is translated into a
function that returns the trace of actions the Go code performs.
-/

namespace Antrian

/-- Mirrors Go `strings.HasPrefix(s, p)` on the underlying character list. -/
def strStartsWith (s p : String) : Bool :=
  p.data.isPrefixOf s.data

/-- Mirrors Go `s == ""` (emptiness test on the underlying character list). -/
def strIsEmpty (s : String) : Bool :=
  s.data.isEmpty

/-- Mirrors Go `strings.TrimPrefix(s, p)`: drop `p` from the front of `s`
when it is a prefix, otherwise return `s` unchanged. -/
def strTrimPre (s p : String) : String :=
  if strStartsWith s p then String.mk (s.data.drop p.data.length) else s

/-!
Section: SSE line scanning (agent.go, `subscribeSSE`, lines 131-170)

The read loop consumes the stream one line at a time: empty lines and
comment lines beginning with `:` (heartbeats) are skipped; a line with
prefix `event: ` makes the loop read the next line, and only when that next
line has prefix `data: ` is the payload (the line minus the `data: `
prefix) handed to `handleSSEMessage`; any other line is ignored.
`sseDataStrings` computes, for a finite prefix of the stream's lines with
the stop signal never raised, the list of payload strings handed to
`handleSSEMessage`, in order.
-/

def sseDataStrings : List String → List String
  | [] => []
  | line :: rest =>
    if strIsEmpty line || strStartsWith line ":" then
      sseDataStrings rest
    else if strStartsWith line "event: " then
      match rest with
      | [] => []
      | dataLine :: rest2 =>
        if strStartsWith dataLine "data: " then
          strTrimPre dataLine "data: " :: sseDataStrings rest2
        else
          sseDataStrings rest2
    else
      sseDataStrings rest

/-!
Section: JSON values and the decoding performed by `handleSSEMessage`

Go's `encoding/json` is standard-library code, so the string-to-value
parser is an oracle; the struct decoding driven by the source's struct
tags (`SSEEvent{Type "type", Data "data"}`, `PrintJobEvent{JobID "job_id",
QueueNumber "queue_number"}`) is embedded below, following Go unmarshal
semantics: a missing field keeps its zero value, `null` leaves the zero
value, later duplicate keys win, and a type mismatch is an error.
-/

inductive Json where
  | null : Json
  | bool (b : Bool) : Json
  | num (n : Int) : Json
  | str (s : String) : Json
  | arr (xs : List Json) : Json
  | obj (fields : List (String × Json)) : Json

/-- Field lookup in a JSON object; Go's decoder lets a later duplicate key
overwrite an earlier one, hence the left fold. -/
def jsonLookup (fields : List (String × Json)) (k : String) : Option Json :=
  fields.foldl (fun acc kv => if kv.1 == k then some kv.2 else acc) none

/-- Decoding a JSON value into a Go `string` field: absent or `null` keeps
the zero value `""`; a non-string value is an unmarshal error. -/
def decodeStringField : Option Json → Except String String
  | none => .ok ""
  | some .null => .ok ""
  | some (.str s) => .ok s
  | some _ => .error "cannot unmarshal into field of type string"

/-- Decoding a JSON value into a Go `int64` field: absent or `null` keeps
the zero value `0`; a non-number value is an unmarshal error. -/
def decodeIntField : Option Json → Except String Int
  | none => .ok 0
  | some .null => .ok 0
  | some (.num n) => .ok n
  | some _ => .error "cannot unmarshal into field of type int64"

/-- Embeds the Go struct `SSEEvent { Type string "type"; Data
json.RawMessage "data" }`; `data` keeps the raw JSON value, `none` when the
field is absent (a nil `RawMessage`). -/
structure SSEEvent where
  type : String
  data : Option Json

/-- Embeds the Go struct `PrintJobEvent { JobID int64 "job_id";
QueueNumber string "queue_number" }`. -/
structure PrintJobEvent where
  jobID : Int
  queueNumber : String

/-- `json.Unmarshal` of a JSON value into `SSEEvent`: only an object (or
`null`, which keeps the zero struct) is accepted. -/
def decodeSSEEvent : Json → Except String SSEEvent
  | .null => .ok { type := "", data := none }
  | .obj fields =>
    match decodeStringField (jsonLookup fields "type") with
    | .error e => .error e
    | .ok ty => .ok { type := ty, data := jsonLookup fields "data" }
  | _ => .error "cannot unmarshal into SSEEvent"

/-- `json.Unmarshal` of a raw `data` payload into `PrintJobEvent`; a nil
`RawMessage` (absent field) is an unmarshal error in Go. -/
def decodePrintJobEvent : Option Json → Except String PrintJobEvent
  | none => .error "unexpected end of JSON input"
  | some .null => .ok { jobID := 0, queueNumber := "" }
  | some (.obj fields) =>
    match decodeIntField (jsonLookup fields "job_id") with
    | .error e => .error e
    | .ok n =>
      match decodeStringField (jsonLookup fields "queue_number") with
      | .error e => .error e
      | .ok q => .ok { jobID := n, queueNumber := q }
  | some _ => .error "cannot unmarshal into PrintJobEvent"

/-- Embeds `handleSSEMessage` (agent.go lines 172-189): parse the payload,
decode the event envelope, and only for type `print_job` decode the job
payload and spawn `processJob` on the job id (`go a.processJob(...)`).
The returned list holds the job ids spawned; every failure path only logs
and spawns nothing, and every non-`print_job` type falls through the
`switch` with no action. -/
def handleSSEMessage (parse : String → Except String Json) (data : String) :
    List Int :=
  match parse data with
  | .error _ => []
  | .ok j =>
    match decodeSSEEvent j with
    | .error _ => []
    | .ok ev =>
      if ev.type == "print_job" then
        match decodePrintJobEvent ev.data with
        | .error _ => []
        | .ok pj => [pj.jobID]
      else []

/-!
Section: Per-job processing (agent.go, `processJob`, lines 191-225)

`processJob` claims the job, parses the ticket template JSON from the
claimed record, hands the ticket data and template to the printer
collaborator, and reports `complete` or `fail`. Its three external calls
(`claimJob`, `json.Unmarshal` into a `TicketTemplate`, and
`printer.PrintTicket`) are oracles collected in `AgentEnv`; the function
returns the ordered trace of externally visible actions.
-/

/-- Embeds the agent's `PrintJobResponse` record (agent.go lines 23-30). -/
structure PrintJobResponse where
  id : Int
  queueNumber : String
  typeName : String
  dateTime : String
  templateJSON : String
  status : String
deriving DecidableEq

/-- Embeds `printer.TicketData` (printer.go lines 79-83). -/
structure TicketData where
  queueNumber : String
  typeName : String
  dateTime : String
deriving DecidableEq

/-- Embeds `printer.TicketTemplate` (printer.go lines 37-49). -/
structure TicketTemplate where
  header : String
  subheader : String
  title : String
  footer1 : String
  footer2 : String
  thanks : String
  showSubheader : Bool
  showType : Bool
  showDatetime : Bool
  showFooter : Bool
  showThanks : Bool
deriving DecidableEq

/-- The agent's external collaborators as oracles: `claim` is `claimJob`
(any non-200 response, transport error, or decode error collapses to
`.error`), `parseTemplate` is `json.Unmarshal` into a `TicketTemplate`,
and `printTicket` is `printer.PrintTicket`. -/
structure AgentEnv where
  claim : Int → Except String PrintJobResponse
  parseTemplate : String → Except String TicketTemplate
  printTicket : TicketData → TicketTemplate → Except String Unit

/-- Externally visible actions of the agent's per-job processing. -/
inductive AgentAction where
  | claimAttempt (jobID : Int) : AgentAction
  | printAttempt (jobID : Int) (data : TicketData) (tmpl : TicketTemplate) : AgentAction
  | reportComplete (jobID : Int) : AgentAction
  | reportFail (jobID : Int) (reason : String) : AgentAction
deriving DecidableEq

/-- The ticket data `processJob` passes to the printer, built from the
claimed job record (agent.go lines 210-214). -/
def ticketDataOf (job : PrintJobResponse) : TicketData :=
  { queueNumber := job.queueNumber, typeName := job.typeName,
    dateTime := job.dateTime }

/-- Embeds `processJob` (agent.go lines 191-225) as its action trace:
claim first; on claim failure log and return; on a template parse error
report `fail` with reason `"failed to parse template: " ++ err`; on a
print error report `fail` with the print error; otherwise report
`complete`. -/
def processJob (env : AgentEnv) (jobID : Int) : List AgentAction :=
  match env.claim jobID with
  | .error _ => [.claimAttempt jobID]
  | .ok claimed =>
    match env.parseTemplate claimed.templateJSON with
    | .error e =>
      [.claimAttempt jobID,
       .reportFail jobID ("failed to parse template: " ++ e)]
    | .ok tmpl =>
      match env.printTicket (ticketDataOf claimed) tmpl with
      | .error e =>
        [.claimAttempt jobID,
         .printAttempt jobID (ticketDataOf claimed) tmpl,
         .reportFail jobID e]
      | .ok _ =>
        [.claimAttempt jobID,
         .printAttempt jobID (ticketDataOf claimed) tmpl,
         .reportComplete jobID]

/-- Number of claim attempts in a trace. -/
def countClaims (l : List AgentAction) : Nat :=
  (l.filter fun a => match a with
    | .claimAttempt _ => true
    | _ => false).length

/-- Whether an action is a terminal report (`complete` or `fail`). -/
def isReport : AgentAction → Bool
  | .reportComplete _ => true
  | .reportFail _ _ => true
  | _ => false

/-- The terminal reports contained in a trace, in order. -/
def reportsOf (l : List AgentAction) : List AgentAction :=
  l.filter isReport

/-- Embeds `catchUpPendingJobs` (agent.go lines 84-108): a transport
error, a non-200 status, or a decode failure of the pending-jobs list
aborts the catch-up with no processing (all collapse to `.error`);
otherwise each listed job is processed sequentially in list order. -/
def catchUpPendingJobs (env : AgentEnv)
    (fetched : Except String (List PrintJobResponse)) : List AgentAction :=
  match fetched with
  | .error _ => []
  | .ok jobs => (jobs.map (fun job => processJob env job.id)).flatten

/-!
Section: The reconnect loop (agent.go, `Run`, lines 55-82)

Each iteration of `Run` performs catch-up, then a blocking `subscribeSSE`
call; when the call returns with an error (stream read error, clean EOF,
non-200 status, or connect failure) the error is logged. The loop then
samples the stop channel (non-blocking `select`), and, when not stopped,
waits out the retry delay in a `select` that also watches the stop
channel. An iteration's inputs are thus the way the stream ended and the
two Boolean samples of the stop signal; its outputs are the event trace
and whether the loop continues with a fresh iteration.
-/

/-- The ways `subscribeSSE` (agent.go lines 110-170) returns to `Run`. -/
inductive StreamEnd where
  | connectFailed (e : String) : StreamEnd
  | badStatus (code : Nat) : StreamEnd
  | readError (e : String) : StreamEnd
  | cleanEOF : StreamEnd
  | stopRaised : StreamEnd
deriving DecidableEq

/-- The error value `subscribeSSE` returns for each way the stream ends:
`none` only when the stop signal was observed inside the read loop. -/
def sseErrMsg : StreamEnd → Option String
  | .connectFailed e => some ("failed to connect SSE: " ++ e)
  | .badStatus code => some ("SSE returned status " ++ toString code)
  | .readError e => some ("SSE read error: " ++ e)
  | .cleanEOF => some "SSE stream ended"
  | .stopRaised => none

/-- The inputs of one `Run` iteration: how the subscribed stream ended,
and the stop-channel state at the two points the loop samples it (the
non-blocking `select` after the stream returns, and the `select` racing
the retry-delay timer). -/
structure IterInput where
  streamEnd : StreamEnd
  stopAfterStream : Bool
  stopDuringDelay : Bool
deriving DecidableEq

/-- Control-flow events of the `Run` loop. -/
inductive RunEvent where
  | catchUp : RunEvent
  | subscribe (se : StreamEnd) : RunEvent
  | logLost (msg : String) : RunEvent
  | waitDelay : RunEvent
  | exitStop : RunEvent
deriving DecidableEq

/-- One iteration of `Run` (agent.go lines 56-81): its event trace and
whether the loop continues. Catch-up and the blocking subscribe always run
to completion before the stop signal is first consulted. -/
def runIterTrace (i : IterInput) : List RunEvent × Bool :=
  let pre : List RunEvent :=
    RunEvent.catchUp :: RunEvent.subscribe i.streamEnd ::
      (match sseErrMsg i.streamEnd with
       | some m => [RunEvent.logLost m]
       | none => [])
  if i.stopAfterStream then
    (pre ++ [RunEvent.exitStop], false)
  else if i.stopDuringDelay then
    (pre ++ [RunEvent.waitDelay, RunEvent.exitStop], false)
  else
    (pre ++ [RunEvent.waitDelay], true)

/-- The `Run` loop over a finite script of iteration inputs (the script
truncates the infinite loop: an exhausted script means the agent is still
running). -/
def runTrace : List IterInput → List RunEvent
  | [] => []
  | i :: rest =>
    (runIterTrace i).1 ++ (if (runIterTrace i).2 then runTrace rest else [])

/-- Number of catch-up events in a run trace. -/
def countCatchUps (l : List RunEvent) : Nat :=
  (l.filter fun e => match e with
    | RunEvent.catchUp => true
    | _ => false).length

/-!
Section: Interleaving of stream reading and spawned job executions

`handleSSEMessage` launches `processJob` on a fresh goroutine
(`go a.processJob(pjEvent.JobID)`, agent.go line 187), so job execution
interleaves with further reads of the stream. `AgentSys` is the joint
state: the remaining stream lines, the spawned-but-unfinished job ids, and
the finished job ids; `AgentStep` is its small-step relation with a read
step (one iteration of the `subscribeSSE` scan loop, spawning any handled
`print_job` id) and an exec step (one spawned goroutine running to
completion).
-/

/-- One iteration of the `subscribeSSE` scan loop on the pending lines:
the remaining lines and the job ids spawned by that iteration. -/
def readStepLines (parse : String → Except String Json) :
    List String → List String × List Int
  | [] => ([], [])
  | line :: rest =>
    if strIsEmpty line || strStartsWith line ":" then (rest, [])
    else if strStartsWith line "event: " then
      match rest with
      | [] => ([], [])
      | dataLine :: rest2 =>
        if strStartsWith dataLine "data: " then
          (rest2, handleSSEMessage parse (strTrimPre dataLine "data: "))
        else (rest2, [])
    else (rest, [])

/-- Joint state of the stream reader and the spawned job goroutines. -/
structure AgentSys where
  lines : List String
  pending : List Int
  handled : List Int
deriving DecidableEq

/-- The successor of a read step: lines advance, spawned ids join the
pending pool, and no job is executed by the read itself. -/
def readSucc (parse : String → Except String Json) (s : AgentSys) : AgentSys :=
  { lines := (readStepLines parse s.lines).1,
    pending := s.pending ++ (readStepLines parse s.lines).2,
    handled := s.handled }

/-- Small-step relation: the reader consumes stream lines, or any one
spawned goroutine runs its job to completion. -/
inductive AgentStep (parse : String → Except String Json) :
    AgentSys → AgentSys → Prop where
  | read (s : AgentSys) (l : String) (rest : List String)
      (h : s.lines = l :: rest) : AgentStep parse s (readSucc parse s)
  | exec (s : AgentSys) (j : Int) (pre post : List Int)
      (h : s.pending = pre ++ j :: post) :
      AgentStep parse s
        { lines := s.lines, pending := pre ++ post,
          handled := s.handled ++ [j] }

/-!
Section: Server-side job store (dispatch protocol)

The server's claim/complete/fail handlers and the job store live outside
the agent sources available here, so they are modelled from the spec's
dispatch-protocol contract (spec.md sections 4.2 and 5): the claim is an
atomic compare-and-set on the job status, linearizable per job, and the
complete/fail handlers are idempotent no-ops once a terminal state is
reached.
-/

/-- The print-job state machine's states. -/
inductive JobStatus where
  | pending : JobStatus
  | claimed : JobStatus
  | completed : JobStatus
  | failed : JobStatus
deriving DecidableEq

/-- A stored print-job record, restricted to the fields the dispatch
protocol's transitions touch. -/
structure StoredJob where
  status : JobStatus
  claimedBy : Option String
  errorMsg : Option String
deriving DecidableEq

/-- Modelled from the spec: the server's `claim(jobID, agentID)` handler
(not under src/; spec.md section 4.2): an atomic compare-and-set on the
job status — when the job is `pending`, set status `claimed` and claimant
`agentID` and return the job, otherwise leave the job unchanged and return
a conflict (`none`). -/
def claimCAS (job : StoredJob) (agentID : String) : Option StoredJob :=
  if job.status = JobStatus.pending then
    some { job with status := JobStatus.claimed, claimedBy := some agentID }
  else
    none

/-- Modelled from the spec: since the job store serializes the claim
transition per job (spec.md section 5, linearizable per job), any set of
concurrent claim attempts takes effect in some sequential order; this runs
such an order and records each attempt's success (`true`) or conflict
(`false`). -/
def runClaims : StoredJob → List String → StoredJob × List Bool
  | job, [] => (job, [])
  | job, a :: rest =>
    match claimCAS job a with
    | some j' => ((runClaims j' rest).1, true :: (runClaims j' rest).2)
    | none => ((runClaims job rest).1, false :: (runClaims job rest).2)

/-- Number of successful attempts in a claim-outcome list. -/
def countSucc (l : List Bool) : Nat :=
  (l.filter id).length

/-- Whether a job status is terminal. -/
def isTerminal (st : JobStatus) : Bool :=
  st = JobStatus.completed || st = JobStatus.failed

/-- Modelled from the spec: the server's `complete(jobID)` handler (not
under src/; spec.md section 4.2): once the job is terminal a repeat call
is a no-op answering 200; otherwise the job becomes `completed` with
status 200. -/
def completeJobServer (job : StoredJob) : StoredJob × Nat :=
  if isTerminal job.status then (job, 200)
  else ({ job with status := JobStatus.completed }, 200)

/-- Modelled from the spec: the server's `fail(jobID, reason)` handler
(not under src/; spec.md section 4.2): once the job is terminal a repeat
call is a no-op answering 200; otherwise the job becomes `failed` with the
reason recorded and status 200. -/
def failJobServer (job : StoredJob) (reason : String) : StoredJob × Nat :=
  if isTerminal job.status then (job, 200)
  else ({ job with status := JobStatus.failed, errorMsg := some reason }, 200)

/-!
Section: Theorems
-/

/-- On a job that is not pending, every claim attempt in a sequence
conflicts and the job record never changes. -/
theorem runClaims_of_not_pending (job : StoredJob) (agents : List String)
    (h : job.status ≠ JobStatus.pending) :
    runClaims job agents = (job, List.replicate agents.length false) := by
  induction agents with
  | nil => simp [runClaims]
  | cons a rest ih =>
    simp [runClaims, claimCAS, h, ih, List.replicate_succ]

/-- A list of conflict outcomes contains no success. -/
theorem countSucc_replicate_false (n : Nat) :
    countSucc (List.replicate n false) = 0 := by
  induction n with
  | zero => simp [countSucc]
  | succ k ih =>
    simp [countSucc, List.replicate_succ] at ih ⊢

/-- C1: a job transitions into `claimed` only from `pending`, and for any
sequence in which concurrent claim attempts on a job are linearized,
exactly the first attempt on a pending job succeeds (becoming the
claimant) while every other attempt observes a conflict; on a non-pending
job every attempt conflicts. -/
theorem claim_exactly_one_succeeds (job : StoredJob) (agents : List String) :
    (∀ a j', claimCAS job a = some j' →
      job.status = JobStatus.pending ∧ j'.status = JobStatus.claimed ∧
      j'.claimedBy = some a) ∧
    (job.status = JobStatus.pending → ∀ a rest, agents = a :: rest →
      (runClaims job agents).2 = true :: List.replicate rest.length false ∧
      countSucc (runClaims job agents).2 = 1 ∧
      (runClaims job agents).1.status = JobStatus.claimed ∧
      (runClaims job agents).1.claimedBy = some a) ∧
    (job.status ≠ JobStatus.pending →
      (runClaims job agents).2 = List.replicate agents.length false ∧
      countSucc (runClaims job agents).2 = 0) := by
  refine ⟨?_, ?_, ?_⟩
  · intro a j' h
    by_cases hp : job.status = JobStatus.pending
    · refine ⟨hp, ?_, ?_⟩ <;> simp [claimCAS, hp] at h <;> simp [← h]
    · simp [claimCAS, hp] at h
  · intro hp a rest hag
    subst hag
    have hcas : claimCAS job a =
        some { job with status := JobStatus.claimed, claimedBy := some a } := by
      simp [claimCAS, hp]
    have hrest := runClaims_of_not_pending
      { job with status := JobStatus.claimed, claimedBy := some a } rest (by simp)
    simp [runClaims, hcas, hrest, countSucc_replicate_false, countSucc]
  · intro hp
    simp [runClaims_of_not_pending job agents hp, countSucc_replicate_false]

/-- A pending job with no claimant. -/
def pendingJob : StoredJob :=
  { status := JobStatus.pending, claimedBy := none, errorMsg := none }

/-- Witness for C1: two linearized claim attempts on a pending job — the
first succeeds, the second conflicts. -/
theorem claim_exactly_one_succeeds_witness :
    (runClaims pendingJob ["printer-1", "printer-2"]).2 = [true, false] ∧
    countSucc (runClaims pendingJob ["printer-1", "printer-2"]).2 = 1 ∧
    (runClaims pendingJob ["printer-1", "printer-2"]).1.claimedBy =
      some "printer-1" := by
  have h := (claim_exactly_one_succeeds pendingJob
    ["printer-1", "printer-2"]).2.1 rfl "printer-1" ["printer-2"] rfl
  exact ⟨by simpa using h.1, h.2.1, h.2.2.2⟩

/-- C6: once a job is terminal (`completed` or `failed`), a repeated
`complete` or `fail` call is a no-op returning 200 and the stored record
is unchanged. -/
theorem terminal_complete_fail_noop (job : StoredJob) (reason : String)
    (h : isTerminal job.status = true) :
    completeJobServer job = (job, 200) ∧
    failJobServer job reason = (job, 200) := by
  simp [completeJobServer, failJobServer, h]

/-- A job that has already completed. -/
def completedJob : StoredJob :=
  { status := JobStatus.completed, claimedBy := some "printer-1",
    errorMsg := none }

/-- Witness for C6: repeating `complete` and `fail` on a completed job
changes nothing and answers 200. -/
theorem terminal_complete_fail_noop_witness :
    completeJobServer completedJob = (completedJob, 200) ∧
    failJobServer completedJob "printer offline" = (completedJob, 200) :=
  terminal_complete_fail_noop completedJob "printer offline" (by decide)

/-- C2: executing a job claims it first and makes exactly one claim
attempt (no automatic retry); a failed claim ends processing with no
report; after a successful claim, a template parse error is reported as
`fail` with reason `"failed to parse template: " ++ err`, a print error is
reported as `fail` with the print error, and otherwise the ticket data and
template are handed to the printer and `complete` is reported. -/
theorem processJob_claim_then_report (env : AgentEnv) (jobID : Int) :
    (processJob env jobID).head? = some (AgentAction.claimAttempt jobID) ∧
    countClaims (processJob env jobID) = 1 ∧
    (∀ e, env.claim jobID = .error e →
      processJob env jobID = [AgentAction.claimAttempt jobID]) ∧
    (∀ job e, env.claim jobID = .ok job →
      env.parseTemplate job.templateJSON = .error e →
      processJob env jobID =
        [AgentAction.claimAttempt jobID,
         AgentAction.reportFail jobID ("failed to parse template: " ++ e)]) ∧
    (∀ job tmpl e, env.claim jobID = .ok job →
      env.parseTemplate job.templateJSON = .ok tmpl →
      env.printTicket (ticketDataOf job) tmpl = .error e →
      processJob env jobID =
        [AgentAction.claimAttempt jobID,
         AgentAction.printAttempt jobID (ticketDataOf job) tmpl,
         AgentAction.reportFail jobID e]) ∧
    (∀ job tmpl, env.claim jobID = .ok job →
      env.parseTemplate job.templateJSON = .ok tmpl →
      env.printTicket (ticketDataOf job) tmpl = .ok () →
      processJob env jobID =
        [AgentAction.claimAttempt jobID,
         AgentAction.printAttempt jobID (ticketDataOf job) tmpl,
         AgentAction.reportComplete jobID]) := by
  refine ⟨?_, ?_, ?_, ?_, ?_, ?_⟩
  · rcases hc : env.claim jobID with e | job
    · simp [processJob, hc]
    · rcases hp : env.parseTemplate job.templateJSON with e | tmpl
      · simp [processJob, hc, hp]
      · rcases hpr : env.printTicket (ticketDataOf job) tmpl with e | u
        · simp [processJob, hc, hp, hpr]
        · simp [processJob, hc, hp, hpr]
  · rcases hc : env.claim jobID with e | job
    · simp [processJob, hc, countClaims]
    · rcases hp : env.parseTemplate job.templateJSON with e | tmpl
      · simp [processJob, hc, hp, countClaims]
      · rcases hpr : env.printTicket (ticketDataOf job) tmpl with e | u
        · simp [processJob, hc, hp, hpr, countClaims]
        · simp [processJob, hc, hp, hpr, countClaims]
  · intro e hc
    simp [processJob, hc]
  · intro job e hc hp
    simp [processJob, hc, hp]
  · intro job tmpl e hc hp hpr
    simp [processJob, hc, hp, hpr]
  · intro job tmpl hc hp hpr
    simp [processJob, hc, hp, hpr]

/-- The claimed job record used by the concrete witness environments. -/
def sampleJob : PrintJobResponse :=
  { id := 7, queueNumber := "A001", typeName := "Umum",
    dateTime := "02/01/2026 08:00", templateJSON := "t", status := "claimed" }

/-- The parsed template used by the concrete witness environments. -/
def sampleTemplate : TicketTemplate :=
  { header := "SISTEM ANTRIAN", subheader := "", title := "NOMOR ANTRIAN ANDA",
    footer1 := "Mohon menunggu hingga", footer2 := "nomor Anda dipanggil",
    thanks := "Terima kasih", showSubheader := true, showType := true,
    showDatetime := true, showFooter := true, showThanks := true }

/-- Environment in which claim, parse, and print all succeed. -/
def envPrintOk : AgentEnv :=
  { claim := fun _ => .ok sampleJob,
    parseTemplate := fun _ => .ok sampleTemplate,
    printTicket := fun _ _ => .ok () }

/-- Environment in which the claim succeeds and the template parse fails. -/
def envParseFail : AgentEnv :=
  { claim := fun _ => .ok sampleJob,
    parseTemplate := fun _ => .error "invalid character",
    printTicket := fun _ _ => .ok () }

/-- Environment in which the claim succeeds and the print fails. -/
def envPrintFail : AgentEnv :=
  { claim := fun _ => .ok sampleJob,
    parseTemplate := fun _ => .ok sampleTemplate,
    printTicket := fun _ _ => .error "print failed: exit status 1" }

/-- Environment in which every claim attempt conflicts. -/
def envClaimConflict : AgentEnv :=
  { claim := fun _ => .error "claim returned 409: already claimed",
    parseTemplate := fun _ => .ok sampleTemplate,
    printTicket := fun _ _ => .ok () }

/-- Witness for C2: the four concrete processing paths. -/
theorem processJob_claim_then_report_witness :
    processJob envClaimConflict 7 = [AgentAction.claimAttempt 7] ∧
    processJob envParseFail 7 =
      [AgentAction.claimAttempt 7,
       AgentAction.reportFail 7 "failed to parse template: invalid character"] ∧
    processJob envPrintFail 7 =
      [AgentAction.claimAttempt 7,
       AgentAction.printAttempt 7 (ticketDataOf sampleJob) sampleTemplate,
       AgentAction.reportFail 7 "print failed: exit status 1"] ∧
    processJob envPrintOk 7 =
      [AgentAction.claimAttempt 7,
       AgentAction.printAttempt 7 (ticketDataOf sampleJob) sampleTemplate,
       AgentAction.reportComplete 7] := by
  refine ⟨?_, ?_, ?_, ?_⟩
  · exact (processJob_claim_then_report envClaimConflict 7).2.2.1
      "claim returned 409: already claimed" rfl
  · exact (processJob_claim_then_report envParseFail 7).2.2.2.1
      sampleJob "invalid character" rfl rfl
  · exact (processJob_claim_then_report envPrintFail 7).2.2.2.2.1
      sampleJob sampleTemplate "print failed: exit status 1" rfl rfl rfl
  · exact (processJob_claim_then_report envPrintOk 7).2.2.2.2.2
      sampleJob sampleTemplate rfl rfl rfl

/-- C9: every control path of `processJob` that begins with a successful
claim issues exactly one terminal report: `complete` when the template
parses and the print succeeds, a single `fail` with the parse or print
error otherwise — never both and never neither. -/
theorem processJob_exactly_one_report (env : AgentEnv) (jobID : Int)
    (job : PrintJobResponse) (hc : env.claim jobID = .ok job) :
    (reportsOf (processJob env jobID)).length = 1 ∧
    (∀ tmpl, env.parseTemplate job.templateJSON = .ok tmpl →
      env.printTicket (ticketDataOf job) tmpl = .ok () →
      reportsOf (processJob env jobID) =
        [AgentAction.reportComplete jobID]) ∧
    (∀ e, env.parseTemplate job.templateJSON = .error e →
      reportsOf (processJob env jobID) =
        [AgentAction.reportFail jobID ("failed to parse template: " ++ e)]) ∧
    (∀ tmpl e, env.parseTemplate job.templateJSON = .ok tmpl →
      env.printTicket (ticketDataOf job) tmpl = .error e →
      reportsOf (processJob env jobID) =
        [AgentAction.reportFail jobID e]) := by
  refine ⟨?_, ?_, ?_, ?_⟩
  · rcases hp : env.parseTemplate job.templateJSON with e | tmpl
    · simp [processJob, hc, hp, reportsOf, isReport]
    · rcases hpr : env.printTicket (ticketDataOf job) tmpl with e | u
      · simp [processJob, hc, hp, hpr, reportsOf, isReport]
      · simp [processJob, hc, hp, hpr, reportsOf, isReport]
  · intro tmpl hp hpr
    simp [processJob, hc, hp, hpr, reportsOf, isReport]
  · intro e hp
    simp [processJob, hc, hp, reportsOf, isReport]
  · intro tmpl e hp hpr
    simp [processJob, hc, hp, hpr, reportsOf, isReport]

/-- Witness for C9: one report on the success path and on the print-fail
path. -/
theorem processJob_exactly_one_report_witness :
    (reportsOf (processJob envPrintOk 7)).length = 1 ∧
    reportsOf (processJob envPrintOk 7) = [AgentAction.reportComplete 7] ∧
    reportsOf (processJob envPrintFail 7) =
      [AgentAction.reportFail 7 "print failed: exit status 1"] := by
  refine ⟨(processJob_exactly_one_report envPrintOk 7 sampleJob rfl).1,
    (processJob_exactly_one_report envPrintOk 7 sampleJob rfl).2.1
      sampleTemplate rfl rfl,
    (processJob_exactly_one_report envPrintFail 7 sampleJob rfl).2.2.2
      sampleTemplate "print failed: exit status 1" rfl rfl⟩

/-- C3: catch-up processes the fetched pending jobs sequentially in list
order, and a claim conflict on one job leaves only that job's claim
attempt in the trace — no report for it — while the remaining jobs are
still processed. -/
theorem catchUp_sequential_skip_conflict (env : AgentEnv)
    (j : PrintJobResponse) (rest : List PrintJobResponse) :
    catchUpPendingJobs env (.ok (j :: rest)) =
      processJob env j.id ++ catchUpPendingJobs env (.ok rest) ∧
    (∀ e, env.claim j.id = .error e →
      catchUpPendingJobs env (.ok (j :: rest)) =
        AgentAction.claimAttempt j.id :: catchUpPendingJobs env (.ok rest) ∧
      reportsOf (processJob env j.id) = []) := by
  constructor
  · simp [catchUpPendingJobs]
  · intro e he
    constructor
    · simp [catchUpPendingJobs, processJob, he]
    · simp [processJob, he, reportsOf, isReport]

/-- Witness for C3: a conflicted first job is skipped while the second job
still prints. -/
theorem catchUp_sequential_skip_conflict_witness :
    catchUpPendingJobs envClaimConflict (.ok [sampleJob, sampleJob]) =
      AgentAction.claimAttempt 7 ::
        catchUpPendingJobs envClaimConflict (.ok [sampleJob]) ∧
    reportsOf (processJob envClaimConflict 7) = [] := by
  have h := (catchUp_sequential_skip_conflict envClaimConflict sampleJob
    [sampleJob]).2 "claim returned 409: already claimed" rfl
  exact ⟨h.1, h.2⟩

/-- C4: every way the event stream terminates — read error, clean end of
stream, or a non-200 connect response — yields a logged error from
`subscribeSSE`; when the stop signal is not raised at either observation
point, the iteration logs the loss, waits the retry delay, and the loop
restarts with the catch-up step (every iteration's trace begins with
catch-up). -/
theorem run_reconnects_after_stream_end :
    (∀ e, sseErrMsg (StreamEnd.readError e) =
      some ("SSE read error: " ++ e)) ∧
    sseErrMsg StreamEnd.cleanEOF = some "SSE stream ended" ∧
    (∀ c, sseErrMsg (StreamEnd.badStatus c) =
      some ("SSE returned status " ++ toString c)) ∧
    (∀ i rest m, sseErrMsg i.streamEnd = some m →
      i.stopAfterStream = false → i.stopDuringDelay = false →
      runTrace (i :: rest) =
        RunEvent.catchUp :: RunEvent.subscribe i.streamEnd ::
          RunEvent.logLost m :: RunEvent.waitDelay :: runTrace rest) ∧
    (∀ i rest, (runTrace (i :: rest)).head? = some RunEvent.catchUp) := by
  refine ⟨fun e => rfl, rfl, fun c => rfl, ?_, ?_⟩
  · intro i rest m h1 h2 h3
    simp [runTrace, runIterTrace, h1, h2, h3]
  · intro i rest
    obtain ⟨se, s1, s2⟩ := i
    cases s1 <;> cases s2 <;> cases hse : sseErrMsg se <;>
      simp [runTrace, runIterTrace, hse]

/-- An iteration whose stream ends cleanly with no stop request. -/
def iterEOF : IterInput :=
  { streamEnd := StreamEnd.cleanEOF, stopAfterStream := false,
    stopDuringDelay := false }

/-- Witness for C4: a clean EOF iteration logs, waits, and the trace
restarts at catch-up. -/
theorem run_reconnects_after_stream_end_witness :
    runTrace [iterEOF, iterEOF] =
      RunEvent.catchUp :: RunEvent.subscribe StreamEnd.cleanEOF ::
        RunEvent.logLost "SSE stream ended" :: RunEvent.waitDelay ::
          runTrace [iterEOF] ∧
    (runTrace [iterEOF]).head? = some RunEvent.catchUp := by
  exact ⟨run_reconnects_after_stream_end.2.2.2.1 iterEOF [iterEOF]
      "SSE stream ended" rfl rfl rfl,
    run_reconnects_after_stream_end.2.2.2.2 iterEOF []⟩

/-- C8: one `Run` iteration exits instead of continuing exactly when the
stop signal is observed at one of its two sampling points (the
non-blocking check after the stream returns, and the check while waiting
out the reconnect delay); even an exiting iteration has already finished
its catch-up and its blocking subscribe, starts no second catch-up, and
ends with the stop exit. -/
theorem run_stop_two_points (i : IterInput) :
    ((runIterTrace i).2 = false ↔
      (i.stopAfterStream = true ∨ i.stopDuringDelay = true)) ∧
    RunEvent.catchUp ∈ (runIterTrace i).1 ∧
    RunEvent.subscribe i.streamEnd ∈ (runIterTrace i).1 ∧
    countCatchUps (runIterTrace i).1 = 1 ∧
    ((runIterTrace i).2 = false →
      (runIterTrace i).1.getLast? = some RunEvent.exitStop) := by
  obtain ⟨se, s1, s2⟩ := i
  cases s1 <;> cases s2 <;> cases hse : sseErrMsg se <;>
    simp [runIterTrace, hse, countCatchUps]

/-- An iteration in which the stop signal is observed right after the
stream returns. -/
def iterStop : IterInput :=
  { streamEnd := StreamEnd.stopRaised, stopAfterStream := true,
    stopDuringDelay := false }

/-- Witness for C8: an iteration that observes the stop signal exits, and
its trace ends with the stop exit after a completed catch-up and
subscribe. -/
theorem run_stop_two_points_witness :
    (runIterTrace iterStop).2 = false ∧
    RunEvent.catchUp ∈ (runIterTrace iterStop).1 ∧
    (runIterTrace iterStop).1.getLast? = some RunEvent.exitStop := by
  have h := run_stop_two_points iterStop
  have h2 : (runIterTrace iterStop).2 = false := h.1.mpr (Or.inl rfl)
  exact ⟨h2, h.2.1, h.2.2.2.2 h2⟩

/-- C7: receiving a `print_job` event spawns the job's execution instead
of running it inline — a read step never executes a job, only adds it to
the spawned pool — and whenever stream lines remain a read step is
enabled no matter how many spawned executions are in flight, while any
step that does execute a job leaves the stream untouched. -/
theorem exec_never_blocks_read (parse : String → Except String Json)
    (s : AgentSys) (hl : s.lines ≠ []) :
    (AgentStep parse s (readSucc parse s) ∧
      (readSucc parse s).handled = s.handled ∧
      (readSucc parse s).pending =
        s.pending ++ (readStepLines parse s.lines).2) ∧
    (∀ s', AgentStep parse s s' → s'.handled ≠ s.handled →
      s'.lines = s.lines) := by
  constructor
  · rcases hls : s.lines with _ | ⟨l, rest⟩
    · exact absurd hls hl
    · refine ⟨AgentStep.read s l rest hls, rfl, ?_⟩
      simp [readSucc, hls]
  · intro s' hstep hne
    cases hstep with
    | read l rest h => exact absurd rfl hne
    | exec j pre post h => rfl

/-- A fixed JSON-parse oracle for the C7 witness. -/
def parseNone : String → Except String Json :=
  fun _ => Except.error "unexpected end of JSON input"

/-- A concrete joint state with one stream line left and two spawned jobs
still in flight. -/
def sysBusy : AgentSys :=
  { lines := [": heartbeat"], pending := [4, 5], handled := [3] }

/-- Witness for C7: with two executions in flight, the reader can still
take a read step that executes nothing. -/
theorem exec_never_blocks_read_witness :
    AgentStep parseNone sysBusy (readSucc parseNone sysBusy) ∧
    (readSucc parseNone sysBusy).handled = sysBusy.handled := by
  have h := (exec_never_blocks_read parseNone sysBusy (by simp [sysBusy])).1
  exact ⟨h.1, h.2.1⟩

/-- A line with prefix `event: ` is neither empty nor a comment line, so
the scan loop's skip branch never swallows it. -/
theorem event_line_not_skipped (ev : String)
    (h : strStartsWith ev "event: " = true) :
    strIsEmpty ev = false ∧ strStartsWith ev ":" = false := by
  obtain ⟨data⟩ := ev
  rcases data with _ | ⟨c, cs⟩
  · exact absurd h (by decide)
  · have hc : c = 'e' := by
      have hd : "event: ".data = 'e' :: ['v', 'e', 'n', 't', ':', ' '] := rfl
      simp [strStartsWith, hd, List.isPrefixOf, Bool.and_eq_true,
        beq_iff_eq] at h
      exact h.1.symm
    subst hc
    exact ⟨rfl, rfl⟩

/-- C5: the stream reader ignores empty lines and `:`-comment heartbeat
lines; an `event: ` line immediately followed by a `data: ` line hands
exactly one payload (the data line minus its prefix) to
`handleSSEMessage`; an `event: ` line whose next line is not a `data: `
line produces no payload; and a handled `print_job` payload's JSON carries
the job under field `job_id` (with `queue_number` alongside), which is the
id the agent goes on to process. -/
theorem sse_frame_parsing :
    (∀ rest, sseDataStrings ("" :: rest) = sseDataStrings rest) ∧
    (∀ line rest, strStartsWith line ":" = true →
      sseDataStrings (line :: rest) = sseDataStrings rest) ∧
    (∀ ev d rest, strStartsWith ev "event: " = true →
      strStartsWith d "data: " = true →
      sseDataStrings (ev :: d :: rest) =
        strTrimPre d "data: " :: sseDataStrings rest) ∧
    (∀ ev d rest, strStartsWith ev "event: " = true →
      strStartsWith d "data: " = false →
      sseDataStrings (ev :: d :: rest) = sseDataStrings rest) ∧
    (∀ parse s n q, parse s = Except.ok (Json.obj
        [("type", Json.str "print_job"),
         ("data", Json.obj
           [("job_id", Json.num n), ("queue_number", Json.str q)])]) →
      handleSSEMessage parse s = [n]) := by
  refine ⟨?_, ?_, ?_, ?_, ?_⟩
  · intro rest
    have h0 : strIsEmpty "" = true := rfl
    rw [sseDataStrings.eq_def]
    simp [h0]
  · intro line rest h
    rw [sseDataStrings.eq_def]
    simp [h]
  · intro ev d rest hev hd
    obtain ⟨hne, hnc⟩ := event_line_not_skipped ev hev
    rw [sseDataStrings.eq_def]
    simp [hne, hnc, hev, hd]
  · intro ev d rest hev hd
    obtain ⟨hne, hnc⟩ := event_line_not_skipped ev hev
    rw [sseDataStrings.eq_def]
    simp [hne, hnc, hev, hd]
  · intro parse s n q h
    unfold handleSSEMessage
    rw [h]
    rfl

/-- A fixed JSON-parse oracle returning a concrete `print_job` event. -/
def parseJobEvent : String → Except String Json :=
  fun _ => Except.ok (Json.obj
    [("type", Json.str "print_job"),
     ("data", Json.obj
       [("job_id", Json.num 7), ("queue_number", Json.str "A001")])])

/-- Witness for C5: a concrete stream prefix with a heartbeat, a blank
line, and one event frame yields exactly the frame's payload, and a
concrete `print_job` payload spawns job 7. -/
theorem sse_frame_parsing_witness :
    sseDataStrings [": hb", "", "event: print_job", "data: x"] = ["x"] ∧
    handleSSEMessage parseJobEvent "x" = [7] := by
  have h1 := sse_frame_parsing.2.1 ": hb" ["", "event: print_job", "data: x"]
    (by decide)
  have h2 := sse_frame_parsing.1 ["event: print_job", "data: x"]
  have h3 := sse_frame_parsing.2.2.1 "event: print_job" "data: x" []
    (by decide) (by decide)
  refine ⟨?_, sse_frame_parsing.2.2.2.2 parseJobEvent "x" 7 "A001" rfl⟩
  rw [h1, h2, h3]
  rfl

/-- C10: a well-formed stream message whose decoded type is anything other
than `print_job` is silently discarded — `handleSSEMessage` spawns no job
(so nothing is claimed and nothing is reported) and raises no error. -/
theorem non_print_job_ignored (parse : String → Except String Json)
    (s : String) (j : Json) (ev : SSEEvent)
    (hp : parse s = Except.ok j) (hd : decodeSSEEvent j = Except.ok ev)
    (ht : ev.type ≠ "print_job") :
    handleSSEMessage parse s = [] := by
  have hb : (ev.type == "print_job") = false := beq_eq_false_iff_ne.mpr ht
  simp [handleSSEMessage, hp, hd, hb]

/-- A fixed JSON-parse oracle returning a `queue_called` event. -/
def parseQueueCalled : String → Except String Json :=
  fun _ => Except.ok (Json.obj [("type", Json.str "queue_called")])

/-- Witness for C10: a `queue_called` message spawns nothing. -/
theorem non_print_job_ignored_witness :
    handleSSEMessage parseQueueCalled "m" = [] :=
  non_print_job_ignored parseQueueCalled "m"
    (Json.obj [("type", Json.str "queue_called")])
    { type := "queue_called", data := none } rfl rfl (by decide)

end Antrian
